import Mathlib

/-!
Verification of the surf-lamp firmware connectivity core.

Shallow embedding of:
* `src/arduino_code/scalable_arduino/core/StateMachine.h` (connection state machine)
* `src/arduino_code/template_ino/maayans_lamp/WiFiFingerprinting.h` and
  `src/arduino_code/template_ino/refractored_ino/reference_ino/WiFiFingerprinting.h`
  (location fingerprinting; `update` is textually identical in the two files,
  `isSameLocation` differs: any-match versus 75%-match)
* `src/arduino_code/scalable_arduino/data/SurfDataModel.h` (freshness check)
* `src/arduino_code/lamp_refractored/lamp_template/WiFiHandler.cpp` (`setupWiFi`
  scenario detection, retry loop, exhaustion fallback)
* `src/arduino_code/template_ino/refractored_ino/WiFiHandler.cpp`
  (`WiFiHandler::setup`, the variant that restarts on exhaustion)

Machine integers are modelled as `Nat`; `millis()` differences are taken on an
unbounded clock (wraparound only occurs on multi-week uptimes, an accepted risk
recorded in the spec). Strings (SSIDs) are modelled as `List Char`; the
C `strncpy` truncation plus explicit null termination is modelled as
`List.take`. Blocking I/O (scan results, connection outcomes, portal outcomes)
is supplied through explicit environment records.
-/

namespace ScalableArduino

/-- `enum SystemState` from StateMachine.h. -/
inductive SystemState where
  | STATE_INIT
  | STATE_WIFI_CONNECTING
  | STATE_WIFI_CONFIG_AP
  | STATE_OPERATIONAL
  | STATE_WIFI_RECONNECTING
  | STATE_ERROR
deriving DecidableEq, Repr

/-- `enum StateEvent` from StateMachine.h. -/
inductive StateEvent where
  | EVENT_BOOT_COMPLETE
  | EVENT_WIFI_CONNECT_SUCCESS
  | EVENT_WIFI_CONNECT_FAILED
  | EVENT_CONFIG_MODE_ENTERED
  | EVENT_CONFIG_COMPLETE
  | EVENT_WIFI_DISCONNECTED
  | EVENT_ERROR_OCCURRED
  | EVENT_NONE
deriving DecidableEq, Repr

/-- The mutable fields of `class StateMachine` (the callback slots carry no
state relevant to the transition relation and are omitted; they are only
invoked, never read). -/
structure StateMachine where
  currentState : SystemState
  previousState : SystemState
  stateStartTime : Nat
  lastStateChange : Nat
deriving DecidableEq, Repr

/-- `StateMachine::transitionTo`: early-returns when the target equals the
current state, otherwise records the previous state and stamps both clocks
with `millis()` (passed here explicitly as `now`). -/
def transitionTo (m : StateMachine) (newState : SystemState) (now : Nat) : StateMachine :=
  if newState = m.currentState then m
  else
    { currentState := newState
      previousState := m.currentState
      stateStartTime := now
      lastStateChange := now }

/-- `StateMachine::processEvent`: the transition table, returning the updated
machine together with the C++ return value `oldState != currentState`. -/
def processEvent (m : StateMachine) (event : StateEvent) (now : Nat) :
    StateMachine × Bool :=
  let next : StateMachine :=
    match m.currentState with
    | SystemState.STATE_INIT =>
        if event = StateEvent.EVENT_BOOT_COMPLETE then
          transitionTo m SystemState.STATE_WIFI_CONNECTING now
        else m
    | SystemState.STATE_WIFI_CONNECTING =>
        if event = StateEvent.EVENT_WIFI_CONNECT_SUCCESS then
          transitionTo m SystemState.STATE_OPERATIONAL now
        else if event = StateEvent.EVENT_WIFI_CONNECT_FAILED then
          transitionTo m SystemState.STATE_WIFI_CONFIG_AP now
        else m
    | SystemState.STATE_WIFI_CONFIG_AP =>
        if event = StateEvent.EVENT_CONFIG_COMPLETE then
          transitionTo m SystemState.STATE_WIFI_CONNECTING now
        else if event = StateEvent.EVENT_WIFI_CONNECT_SUCCESS then
          transitionTo m SystemState.STATE_OPERATIONAL now
        else m
    | SystemState.STATE_OPERATIONAL =>
        if event = StateEvent.EVENT_WIFI_DISCONNECTED then
          transitionTo m SystemState.STATE_WIFI_RECONNECTING now
        else if event = StateEvent.EVENT_ERROR_OCCURRED then
          transitionTo m SystemState.STATE_ERROR now
        else m
    | SystemState.STATE_WIFI_RECONNECTING =>
        if event = StateEvent.EVENT_WIFI_CONNECT_SUCCESS then
          transitionTo m SystemState.STATE_OPERATIONAL now
        else if event = StateEvent.EVENT_WIFI_CONNECT_FAILED then
          transitionTo m SystemState.STATE_WIFI_CONFIG_AP now
        else m
    | SystemState.STATE_ERROR => m
  (next, decide (m.currentState ≠ next.currentState))

/-- `StateMachine::forceState`: unconditional state overwrite used for
testing/recovery; the only code path that can leave `STATE_ERROR`. -/
def forceState (m : StateMachine) (newState : SystemState) (now : Nat) : StateMachine :=
  { currentState := newState
    previousState := m.currentState
    stateStartTime := now
    lastStateChange := now }

/-- The (state, event) pairs that appear as transitions in
`StateMachine::processEvent`. Everything else is a logged no-op. -/
def isTableTransition (s : SystemState) (e : StateEvent) : Bool :=
  match s, e with
  | SystemState.STATE_INIT, StateEvent.EVENT_BOOT_COMPLETE => true
  | SystemState.STATE_WIFI_CONNECTING, StateEvent.EVENT_WIFI_CONNECT_SUCCESS => true
  | SystemState.STATE_WIFI_CONNECTING, StateEvent.EVENT_WIFI_CONNECT_FAILED => true
  | SystemState.STATE_WIFI_CONFIG_AP, StateEvent.EVENT_CONFIG_COMPLETE => true
  | SystemState.STATE_WIFI_CONFIG_AP, StateEvent.EVENT_WIFI_CONNECT_SUCCESS => true
  | SystemState.STATE_OPERATIONAL, StateEvent.EVENT_WIFI_DISCONNECTED => true
  | SystemState.STATE_OPERATIONAL, StateEvent.EVENT_ERROR_OCCURRED => true
  | SystemState.STATE_WIFI_RECONNECTING, StateEvent.EVENT_WIFI_CONNECT_SUCCESS => true
  | SystemState.STATE_WIFI_RECONNECTING, StateEvent.EVENT_WIFI_CONNECT_FAILED => true
  | _, _ => false

end ScalableArduino

namespace WiFiFingerprinting

/-- SSIDs are byte strings; modelled as character lists. `WiFi.scanNetworks()`
results are modelled as the list of visible SSIDs in scan order. -/
abbrev Ssid := List Char

/-- `MAX_NEIGHBORS` from WiFiFingerprinting.h. -/
def MAX_NEIGHBORS : Nat := 4

/-- `FINGERPRINT_MAX_SSID_LEN` from WiFiFingerprinting.h. -/
def FINGERPRINT_MAX_SSID_LEN : Nat := 32

/-- The fingerprint state: the in-memory `fingerprint.neighbors[0..count)`
entries, and the copy persisted to NVS (`wifi_fp` record: count plus one
string per entry). `count` is the length of the list. -/
structure FingerprintStore where
  neighbors : List Ssid
  persisted : List Ssid
deriving DecidableEq, Repr

/-- The collection loop of `WiFiFingerprinting::update`:
`for (i = 0; i < numNetworks && count < MAX_NEIGHBORS; i++)` skipping empty
SSIDs and the target SSID, storing each kept SSID via
`strncpy(..., FINGERPRINT_MAX_SSID_LEN)` followed by explicit null
termination — i.e. truncation to 32 characters. -/
def collectNeighbors (targetSSID : Ssid) : List Ssid → Nat → List Ssid
  | [], _ => []
  | ssid :: rest, count =>
      if MAX_NEIGHBORS ≤ count then []
      else if ssid.length = 0 ∨ ssid = targetSSID then
        collectNeighbors targetSSID rest count
      else
        ssid.take FINGERPRINT_MAX_SSID_LEN :: collectNeighbors targetSSID rest (count + 1)

/-- `WiFiFingerprinting::update` (textually identical in
`maayans_lamp/WiFiFingerprinting.h` and
`refractored_ino/reference_ino/WiFiFingerprinting.h`): if the scan sees zero
networks, return without touching anything; otherwise rebuild the neighbor
list from the scan (excluding the connected target SSID) and persist it. -/
def update (scanResults : List Ssid) (targetSSID : Ssid) (st : FingerprintStore) :
    FingerprintStore :=
  if scanResults.length = 0 then st
  else
    let ns := collectNeighbors targetSSID scanResults 0
    { neighbors := ns, persisted := ns }

end WiFiFingerprinting

namespace MaayansLamp

open WiFiFingerprinting

/-- `WiFiFingerprinting::isSameLocation` from
`template_ino/maayans_lamp/WiFiFingerprinting.h`: false on an empty stored
record, true when the scan sees nothing (fail open), otherwise true exactly
when some visible SSID equals some stored neighbor (any-match, early
return on the first hit). -/
def isSameLocation (stored : List Ssid) (scanResults : List Ssid) : Bool :=
  if stored.length = 0 then false
  else if scanResults.length = 0 then true
  else scanResults.any (fun currentSSID => stored.any (fun n => decide (currentSSID = n)))

end MaayansLamp

namespace ReferenceIno

open WiFiFingerprinting

/-- The 75%-policy threshold of
`reference_ino/WiFiFingerprinting.h::isSameLocation`:
`(count == 1) ? 1 : (count * 3) / 4`, bumped to a minimum of 1. -/
def requiredMatches (count : Nat) : Nat :=
  let r := if count = 1 then 1 else count * 3 / 4
  if r = 0 then 1 else r

/-- `WiFiFingerprinting::isSameLocation` from
`template_ino/refractored_ino/reference_ino/WiFiFingerprinting.h`: false on an
empty stored record, true when the scan sees nothing (fail open), otherwise
counts the visible SSIDs that match some stored neighbor (each visible network
counted at most once — the inner loop breaks on the first hit) and requires
`matchCount >= requiredMatches`. -/
def isSameLocation (stored : List Ssid) (scanResults : List Ssid) : Bool :=
  if stored.length = 0 then false
  else if scanResults.length = 0 then true
  else
    let matchCount :=
      (scanResults.filter (fun currentSSID => stored.any (fun n => decide (currentSSID = n)))).length
    decide (requiredMatches stored.length ≤ matchCount)

end ReferenceIno

namespace ScalableArduino

/-- The fields of `struct SurfData` that `isFresh` reads (the surf
measurements, thresholds and display flags do not enter the freshness
computation and are omitted from this embedding). -/
structure SurfData where
  dataReceived : Bool
  lastUpdate : Nat
deriving DecidableEq, Repr

/-- `SurfData::isFresh`: `if (!dataReceived) return false; return
(millis() - lastUpdate) < timeout_ms;` with `millis()` passed explicitly. -/
def SurfData.isFresh (d : SurfData) (now timeout_ms : Nat) : Bool :=
  if !d.dataReceived then false
  else decide (now - d.lastUpdate < timeout_ms)

end ScalableArduino

namespace LampTemplate

/-- `FETCH_INTERVAL` from lamp_template/WebServerHandler.cpp (13 minutes). -/
def FETCH_INTERVAL : Nat := 780000

/-- `DATA_STALENESS_THRESHOLD` from lamp_template/WebServerHandler.cpp
(30 minutes). -/
def DATA_STALENESS_THRESHOLD : Nat := 1800000

end LampTemplate

namespace LampTemplate

/-- `MAX_WIFI_RETRIES` from lamp_template/WiFiHandler.cpp. -/
def MAX_WIFI_RETRIES : Nat := 10

namespace WiFiTimeouts

/-- 17 minutes. -/
def PORTAL_TIMEOUT_GENEROUS_SEC : Nat := 1020

/-- First attempt. -/
def INITIAL_CONNECTION_TIMEOUT_SEC : Nat := 20

/-- Cap for exponential backoff. -/
def MAX_CONNECTION_TIMEOUT_SEC : Nat := 60

/-- 5 minutes total. -/
def ROUTER_REBOOT_TIMEOUT_MS : Nat := 300000

end WiFiTimeouts

namespace WiFiDelays

/-- First retry delay. -/
def INITIAL_RETRY_DELAY_SEC : Nat := 5

/-- Cap for exponential backoff. -/
def MAX_RETRY_DELAY_SEC : Nat := 60

end WiFiDelays

/-- `enum SetupScenario` local to `setupWiFi`. `NEW_LOCATION` and
`HAS_CREDENTIALS` are declared but never assigned in this translation unit:
the one assignment is `scenario = hasCredentials ? ROUTER_REBOOT :
FIRST_SETUP` and `scenario` is never written again. -/
inductive SetupScenario where
  | FIRST_SETUP
  | ROUTER_REBOOT
  | NEW_LOCATION
  | HAS_CREDENTIALS
deriving DecidableEq, Repr

/-- Scenario detection, performed once before the retry loop:
`hasCredentials ? ROUTER_REBOOT : FIRST_SETUP`. It reads only the persisted
WiFi credentials (the fingerprint record loaded just before plays no part). -/
def detectScenario (hasCredentials : Bool) : SetupScenario :=
  if hasCredentials then SetupScenario.ROUTER_REBOOT else SetupScenario.FIRST_SETUP

/-- The environment feeding the retry loop of `setupWiFi`: the result of the
connection attempt of each iteration (`WiFi.begin` + status polling for
ROUTER_REBOOT, `wifiManager.autoConnect` otherwise), whether
`WiFi.SSID()` is nonempty after a failed iteration, the
`fingerprinting.isSameLocation()` answer of each iteration, the extra
milliseconds each failed iteration spends outside the modelled
timeout/delay (scan, LED feedback, the 1 s purple display — all nonnegative),
and the result of the final `wifiManager.startConfigPortal` call. -/
structure LoopEnv where
  connectOk : Nat → Bool
  ssidKnown : Nat → Bool
  sameLoc : Nat → Bool
  diagTime : Nat → Nat
  portalOk : Bool

/-- Connection timeout of attempt `n` in the ROUTER_REBOOT loop:
`min(INITIAL_CONNECTION_TIMEOUT_SEC * pow(2, attempt - 1),
MAX_CONNECTION_TIMEOUT_SEC)` — 20 s doubling up to the 60 s cap. -/
def connTimeoutSec (attempt : Nat) : Nat :=
  min (WiFiTimeouts.INITIAL_CONNECTION_TIMEOUT_SEC * 2 ^ (attempt - 1))
    WiFiTimeouts.MAX_CONNECTION_TIMEOUT_SEC

/-- Retry delay after failed attempt `n` in the ROUTER_REBOOT loop:
`min(INITIAL_RETRY_DELAY_SEC * pow(2, attempt - 1), MAX_RETRY_DELAY_SEC)` —
5 s doubling up to the 60 s cap. -/
def retryDelaySec (attempt : Nat) : Nat :=
  min (WiFiDelays.INITIAL_RETRY_DELAY_SEC * 2 ^ (attempt - 1))
    WiFiDelays.MAX_RETRY_DELAY_SEC

/-- How the `while (!connected)` loop of `setupWiFi` ended. -/
inductive LoopExit where
  | connected (attempt : Nat)
  | exhausted (attempt : Nat)
  | relocated (attempt : Nat)
  | restartDevice (attempt : Nat)
deriving DecidableEq, Repr

/-- The ROUTER_REBOOT instantiation of the `while (!connected)` loop of
`setupWiFi`, per iteration (attempt pre-incremented): break once 5 minutes
have elapsed; otherwise `WiFi.begin()` and poll up to the exponential
timeout; a failed iteration with a known SSID whose
`fingerprinting.isSameLocation()` is negative breaks out; otherwise the
iteration consumed its full timeout, its diagnostics and the exponential
retry delay, and the loop repeats. `elapsed` stands for
`millis() - retryStartTime` under a monotone clock. -/
def routerLoop (env : LoopEnv) (attempt elapsed : Nat) : LoopExit :=
  if h : WiFiTimeouts.ROUTER_REBOOT_TIMEOUT_MS ≤ elapsed then
    LoopExit.exhausted attempt
  else if env.connectOk attempt then
    LoopExit.connected attempt
  else if env.ssidKnown attempt && !env.sameLoc attempt then
    LoopExit.relocated attempt
  else
    routerLoop env (attempt + 1)
      (elapsed + connTimeoutSec attempt * 1000 + env.diagTime attempt
        + retryDelaySec attempt * 1000)
termination_by WiFiTimeouts.ROUTER_REBOOT_TIMEOUT_MS - elapsed
decreasing_by
  have hpow : 1 ≤ 2 ^ (attempt - 1) := Nat.one_le_pow _ _ (by decide)
  have h20 : 20 ≤ connTimeoutSec attempt := by
    unfold connTimeoutSec WiFiTimeouts.INITIAL_CONNECTION_TIMEOUT_SEC
      WiFiTimeouts.MAX_CONNECTION_TIMEOUT_SEC
    omega
  have h5 : 5 ≤ retryDelaySec attempt := by
    unfold retryDelaySec WiFiDelays.INITIAL_RETRY_DELAY_SEC
      WiFiDelays.MAX_RETRY_DELAY_SEC
    omega
  unfold WiFiTimeouts.ROUTER_REBOOT_TIMEOUT_MS at *
  omega

/-- The FIRST_SETUP instantiation of the `while (!connected)` loop of
`setupWiFi`: the portal timeout was preset to 17 minutes before the loop;
each iteration breaks at its top when `attempt > 1` (single `autoConnect`
attempt); a failure with an empty `WiFi.SSID()` restarts the device
(`ESP.restart()`); a failure with a known SSID runs diagnostics and breaks
on a negative `isSameLocation()`; no retry delay applies. -/
def firstSetupLoop (env : LoopEnv) (attempt : Nat) : LoopExit :=
  if h : 1 < attempt then
    LoopExit.exhausted attempt
  else if env.connectOk attempt then
    LoopExit.connected attempt
  else if !env.ssidKnown attempt then
    LoopExit.restartDevice attempt
  else if !env.sameLoc attempt then
    LoopExit.relocated attempt
  else
    firstSetupLoop env (attempt + 1)
termination_by 2 - attempt
decreasing_by
  omega

/-- The retry loop of `setupWiFi`, dispatched on the detected scenario
(which `detectScenario` only ever makes FIRST_SETUP or ROUTER_REBOOT; the
loop branches for the never-assigned NEW_LOCATION / HAS_CREDENTIALS values
are dead code and not modelled). Both loops start at `attempt = 1` with
zero elapsed time. -/
def acquisitionLoop (hasCredentials : Bool) (env : LoopEnv) : LoopExit :=
  match detectScenario hasCredentials with
  | SetupScenario.ROUTER_REBOOT => routerLoop env 1 0
  | _ => firstSetupLoop env 1

/-- The observable outcome of one `setupWiFi` run. `returnValue = none`
means `ESP.restart()` fired and the function never returned;
`portalForcedIndefinite` records that the fallback block after the loop ran:
`setConfigPortalTimeout(0)` followed by `startConfigPortal`. -/
structure SetupResult where
  scenario : SetupScenario
  loadedFingerprint : WiFiFingerprinting.FingerprintStore
  loopExit : LoopExit
  portalForcedIndefinite : Bool
  returnValue : Option Bool
deriving Repr

/-- The code after the `while (!connected)` loop of `setupWiFi`: if the loop
connected, return true; if it exited without a connection, do *not* restart —
set the portal timeout to 0 (indefinite) and run `startConfigPortal`,
returning false exactly when that portal call fails, true otherwise. A
device restart inside the loop never reaches this block. -/
def setupAfterLoop (env : LoopEnv) (scenario : SetupScenario)
    (fp : WiFiFingerprinting.FingerprintStore) (ex : LoopExit) : SetupResult :=
  match ex with
  | LoopExit.connected n => ⟨scenario, fp, LoopExit.connected n, false, some true⟩
  | LoopExit.restartDevice n => ⟨scenario, fp, LoopExit.restartDevice n, false, none⟩
  | LoopExit.exhausted n =>
      if env.portalOk then ⟨scenario, fp, LoopExit.exhausted n, true, some true⟩
      else ⟨scenario, fp, LoopExit.exhausted n, true, some false⟩
  | LoopExit.relocated n =>
      if env.portalOk then ⟨scenario, fp, LoopExit.relocated n, true, some true⟩
      else ⟨scenario, fp, LoopExit.relocated n, true, some false⟩

/-- `setupWiFi` from lamp_template/WiFiHandler.cpp: load the fingerprint,
detect the scenario once from the persisted credentials, run the retry
loop, then the post-loop fallback. -/
def setupWiFi (fp : WiFiFingerprinting.FingerprintStore) (hasCredentials : Bool)
    (env : LoopEnv) : SetupResult :=
  setupAfterLoop env (detectScenario hasCredentials) fp
    (acquisitionLoop hasCredentials env)

/-- The attempt counter value at which the loop stopped. -/
def exitAttempt : LoopExit → Nat
  | LoopExit.connected n => n
  | LoopExit.exhausted n => n
  | LoopExit.relocated n => n
  | LoopExit.restartDevice n => n

/-- How many connection attempts actually ran: an `exhausted` exit breaks at
the top of iteration `n`, before attempting, so `n - 1` attempts ran. -/
def attemptsTried : LoopExit → Nat
  | LoopExit.connected n => n
  | LoopExit.exhausted n => n - 1
  | LoopExit.relocated n => n
  | LoopExit.restartDevice n => n

/-- Did the loop exit by exhausting its budget or attempts? -/
def isExhausted : LoopExit → Bool
  | LoopExit.exhausted _ => true
  | _ => false

/-- Did the loop exit through the negative-`isSameLocation` break? -/
def isRelocated : LoopExit → Bool
  | LoopExit.relocated _ => true
  | _ => false

end LampTemplate

namespace RefractoredIno

/-- `MAX_WIFI_RETRIES` in refractored_ino (only used for the unreachable
ROUTER_REBOOT attempt count). -/
def MAX_WIFI_RETRIES : Nat := 10

/-- `enum SetupScenario` local to `WiFiHandler::setup` in
template_ino/refractored_ino/WiFiHandler.cpp. The only assignments are
`scenario = HAS_CREDENTIALS` and, when no credentials are stored,
`scenario = FIRST_SETUP`; `ROUTER_REBOOT` is never assigned, so
`maxAttempts = (scenario == ROUTER_REBOOT) ? MAX_WIFI_RETRIES : 1` is
always 1. -/
inductive SetupScenario where
  | FIRST_SETUP
  | ROUTER_REBOOT
  | NEW_LOCATION
  | HAS_CREDENTIALS
deriving DecidableEq, Repr

/-- Scenario selection of `WiFiHandler::setup`. -/
def detectScenario (hasCredentials : Bool) : SetupScenario :=
  if hasCredentials then SetupScenario.HAS_CREDENTIALS else SetupScenario.FIRST_SETUP

/-- `maxAttempts = (scenario == ROUTER_REBOOT) ? MAX_WIFI_RETRIES : 1`. -/
def maxAttempts (scenario : SetupScenario) : Nat :=
  if scenario = SetupScenario.ROUTER_REBOOT then MAX_WIFI_RETRIES else 1

/-- How the (single-iteration, since `maxAttempts = 1`) for-loop of
`WiFiHandler::setup` ended. -/
inductive LoopEnd where
  | connectedEnd
  | restartedInLoop
  | brokeRelocated
  | loopFinished
deriving DecidableEq, Repr

/-- The for-loop body of `WiFiHandler::setup`: `autoConnect`; on failure,
an empty `WiFi.SSID()` under FIRST_SETUP (or the never-assigned
NEW_LOCATION) restarts immediately; otherwise diagnostics run and a negative
`fingerprinting.isSameLocation()` breaks out of the loop; with
`maxAttempts = 1` the loop otherwise simply finishes unconnected. -/
def setupLoop (hasCredentials connectOk attemptedSSIDKnown sameLocation : Bool) : LoopEnd :=
  let scenario := detectScenario hasCredentials
  if connectOk then LoopEnd.connectedEnd
  else if !attemptedSSIDKnown
      && (decide (scenario = SetupScenario.FIRST_SETUP)
          || decide (scenario = SetupScenario.NEW_LOCATION)) then
    LoopEnd.restartedInLoop
  else if !sameLocation then LoopEnd.brokeRelocated
  else LoopEnd.loopFinished

/-- The observable outcome of `WiFiHandler::setup` (the function returns
`void`; `restartDevice` marks every path that reaches `ESP.restart()`). -/
inductive Outcome where
  | connected
  | restartDevice
deriving DecidableEq, Repr

/-- `WiFiHandler::setup` from template_ino/refractored_ino/WiFiHandler.cpp:
after the loop, `if (!connected) { Serial.println("Failed after retries.
Restarting..."); delay(3000); ESP.restart(); }` — every unconnected exit,
exhaustion and relocation break alike, restarts the device; no fallback
portal is opened. -/
def setup (hasCredentials connectOk attemptedSSIDKnown sameLocation : Bool) : Outcome :=
  match setupLoop hasCredentials connectOk attemptedSSIDKnown sameLocation with
  | LoopEnd.connectedEnd => Outcome.connected
  | LoopEnd.restartedInLoop => Outcome.restartDevice
  | LoopEnd.brokeRelocated => Outcome.restartDevice
  | LoopEnd.loopFinished => Outcome.restartDevice

end RefractoredIno

namespace ScalableArduino

/-- Claim C6: in the connection state machine, a link-dropped
(`EVENT_WIFI_DISCONNECTED`) event processed in `STATE_OPERATIONAL` always
transitions to `STATE_WIFI_RECONNECTING` (never directly to the config-portal
state), and a connect-failed event processed in `STATE_WIFI_RECONNECTING`
always transitions to `STATE_WIFI_CONFIG_AP` (never to `STATE_ERROR`); both
report a state change. -/
theorem C6_operational_and_recovering_transitions :
    ∀ (p : SystemState) (t1 t2 now : Nat),
      processEvent ⟨SystemState.STATE_OPERATIONAL, p, t1, t2⟩
          StateEvent.EVENT_WIFI_DISCONNECTED now
        = (⟨SystemState.STATE_WIFI_RECONNECTING, SystemState.STATE_OPERATIONAL, now, now⟩, true)
      ∧ processEvent ⟨SystemState.STATE_WIFI_RECONNECTING, p, t1, t2⟩
          StateEvent.EVENT_WIFI_CONNECT_FAILED now
        = (⟨SystemState.STATE_WIFI_CONFIG_AP, SystemState.STATE_WIFI_RECONNECTING, now, now⟩, true) := by
  intro p t1 t2 now
  constructor <;> simp [processEvent, transitionTo]

/-- Claim C7: for every (state, event) pair outside the transition table,
`processEvent` is a no-op — the whole machine record (current state, previous
state, both timestamps) is unchanged and the function returns `false`; the
error state is sticky (every event processed there is such a no-op), and
`forceState` is the explicit exit: it installs any requested state. -/
theorem C7_untabled_events_are_noops_and_error_sticky :
    (∀ (m : StateMachine) (e : StateEvent) (now : Nat),
        isTableTransition m.currentState e = false →
          processEvent m e now = (m, false))
    ∧ (∀ (m : StateMachine) (e : StateEvent) (now : Nat),
        m.currentState = SystemState.STATE_ERROR →
          processEvent m e now = (m, false))
    ∧ (∀ (m : StateMachine) (s : SystemState) (now : Nat),
        (forceState m s now).currentState = s
        ∧ (forceState m s now).previousState = m.currentState) := by
  refine ⟨?_, ?_, ?_⟩
  · rintro ⟨cs, ps, t1, t2⟩ e now h
    cases cs <;> cases e <;> simp_all [processEvent, isTableTransition, transitionTo]
  · rintro ⟨cs, ps, t1, t2⟩ e now h
    subst h
    cases e <;> simp [processEvent]
  · intro m s now
    exact ⟨rfl, rfl⟩

/-- Witness for C7: the pair (`STATE_OPERATIONAL`, `EVENT_BOOT_COMPLETE`) is
not in the table, and processing it leaves a concrete machine untouched and
returns `false`. -/
theorem C7_witness :
    isTableTransition SystemState.STATE_OPERATIONAL StateEvent.EVENT_BOOT_COMPLETE = false
    ∧ processEvent ⟨SystemState.STATE_OPERATIONAL, SystemState.STATE_INIT, 3, 4⟩
        StateEvent.EVENT_BOOT_COMPLETE 17
      = (⟨SystemState.STATE_OPERATIONAL, SystemState.STATE_INIT, 3, 4⟩, false) :=
  ⟨rfl, C7_untabled_events_are_noops_and_error_sticky.1
    ⟨SystemState.STATE_OPERATIONAL, SystemState.STATE_INIT, 3, 4⟩
    StateEvent.EVENT_BOOT_COMPLETE 17 rfl⟩

end ScalableArduino

namespace WiFiFingerprinting

lemma collectNeighbors_length_le (t : Ssid) :
    ∀ (scan : List Ssid) (count : Nat),
      (collectNeighbors t scan count).length + count ≤ max MAX_NEIGHBORS count := by
  intro scan
  induction scan with
  | nil => intro count; simp [collectNeighbors]
  | cons s rest ih =>
      intro count
      unfold collectNeighbors
      split
      · next h4 =>
          simp only [List.length_nil]
          omega
      · next h4 =>
          split
          · next hskip => exact ih count
          · next hskip =>
              have hrec := ih (count + 1)
              simp only [List.length_cons]
              unfold MAX_NEIGHBORS at *
              omega

lemma collectNeighbors_mem (t : Ssid) :
    ∀ (scan : List Ssid) (count : Nat) (e : Ssid),
      e ∈ collectNeighbors t scan count →
        ∃ s ∈ scan, s.length ≠ 0 ∧ s ≠ t ∧ e = s.take FINGERPRINT_MAX_SSID_LEN := by
  intro scan
  induction scan with
  | nil => intro count e he; simp [collectNeighbors] at he
  | cons s rest ih =>
      intro count e he
      unfold collectNeighbors at he
      split at he
      · next h4 => simp at he
      · next h4 =>
          split at he
          · next hskip =>
              obtain ⟨s', hs', h1, h2, h3⟩ := ih count e he
              exact ⟨s', List.mem_cons_of_mem _ hs', h1, h2, h3⟩
          · next hskip =>
              push_neg at hskip
              rcases List.mem_cons.mp he with he | he
              · exact ⟨s, List.mem_cons_self _ _, hskip.1, hskip.2, he⟩
              · obtain ⟨s', hs', h1, h2, h3⟩ := ih (count + 1) e he
                exact ⟨s', List.mem_cons_of_mem _ hs', h1, h2, h3⟩

end WiFiFingerprinting

namespace WiFiFingerprinting

/-- Claim C5: on a nonempty scan, `update` stores at most `MAX_NEIGHBORS = 4`
entries; every stored entry is nonempty, is truncated to the 32-character
bound (the null termination of the C buffer is exactly this truncation), and
originates from a scanned SSID different from the connected target; when scan
entries respect the 32-byte SSID limit of the radio, the target's identifier
itself is never among the stored entries; and the persisted copy equals the
in-memory record. -/
theorem C5_update_invariants (scanResults : List Ssid) (targetSSID : Ssid)
    (st : FingerprintStore) (hscan : scanResults ≠ []) :
    (update scanResults targetSSID st).neighbors.length ≤ MAX_NEIGHBORS
    ∧ (∀ e ∈ (update scanResults targetSSID st).neighbors,
        e ≠ [] ∧ e.length ≤ FINGERPRINT_MAX_SSID_LEN
        ∧ ∃ s ∈ scanResults, s ≠ targetSSID ∧ e = s.take FINGERPRINT_MAX_SSID_LEN)
    ∧ ((∀ s ∈ scanResults, s.length ≤ FINGERPRINT_MAX_SSID_LEN) →
        targetSSID ∉ (update scanResults targetSSID st).neighbors)
    ∧ (update scanResults targetSSID st).persisted
        = (update scanResults targetSSID st).neighbors := by
  have hlen : scanResults.length ≠ 0 := by
    simpa [List.length_eq_zero] using hscan
  have hu : update scanResults targetSSID st
      = { neighbors := collectNeighbors targetSSID scanResults 0
          persisted := collectNeighbors targetSSID scanResults 0 } := by
    unfold update
    rw [if_neg hlen]
  rw [hu]
  refine ⟨?_, ?_, ?_, rfl⟩
  · show (collectNeighbors targetSSID scanResults 0).length ≤ MAX_NEIGHBORS
    have := collectNeighbors_length_le targetSSID scanResults 0
    simp only [Nat.max_zero] at this
    omega
  · intro e he
    obtain ⟨s, hs, hne, hnt, heq⟩ := collectNeighbors_mem targetSSID scanResults 0 e he
    refine ⟨?_, ?_, s, hs, hnt, heq⟩
    · subst heq
      intro hnil
      have : s = [] ∨ FINGERPRINT_MAX_SSID_LEN = 0 := by
        rcases List.take_eq_nil_iff.mp hnil with h | h
        · exact Or.inr h
        · exact Or.inl h
      rcases this with h | h
      · exact hne (by simp [h])
      · exact absurd h (by unfold FINGERPRINT_MAX_SSID_LEN; omega)
    · subst heq
      simp [List.length_take]
  · intro hbound hmem
    obtain ⟨s, hs, hne, hnt, heq⟩ := collectNeighbors_mem targetSSID scanResults 0 _ hmem
    have : s.take FINGERPRINT_MAX_SSID_LEN = s :=
      List.take_of_length_le (hbound s hs)
    rw [this] at heq
    exact hnt heq.symm

/-- Witness for C5 at a concrete scan with five candidates (one of them the
target, one empty, one overlong): the claim's hypotheses hold and all four
invariants follow. -/
theorem C5_witness :
    (([['a'], ['t'], [], ['b'], ['c'], ['d'], ['e']] : List Ssid) ≠ [])
    ∧ ((update [['a'], ['t'], [], ['b'], ['c'], ['d'], ['e']] ['t']
          ⟨[], []⟩).neighbors.length ≤ MAX_NEIGHBORS
      ∧ (∀ e ∈ (update [['a'], ['t'], [], ['b'], ['c'], ['d'], ['e']] ['t']
            ⟨[], []⟩).neighbors,
          e ≠ [] ∧ e.length ≤ FINGERPRINT_MAX_SSID_LEN
          ∧ ∃ s ∈ ([['a'], ['t'], [], ['b'], ['c'], ['d'], ['e']] : List Ssid),
              s ≠ ['t'] ∧ e = s.take FINGERPRINT_MAX_SSID_LEN)
      ∧ ((∀ s ∈ ([['a'], ['t'], [], ['b'], ['c'], ['d'], ['e']] : List Ssid),
            s.length ≤ FINGERPRINT_MAX_SSID_LEN) →
          (['t'] : Ssid) ∉ (update [['a'], ['t'], [], ['b'], ['c'], ['d'], ['e']] ['t']
            ⟨[], []⟩).neighbors)
      ∧ (update [['a'], ['t'], [], ['b'], ['c'], ['d'], ['e']] ['t']
            ⟨[], []⟩).persisted
          = (update [['a'], ['t'], [], ['b'], ['c'], ['d'], ['e']] ['t']
            ⟨[], []⟩).neighbors) := by
  have h : (([['a'], ['t'], [], ['b'], ['c'], ['d'], ['e']] : List Ssid) ≠ []) := by
    decide
  exact ⟨h, C5_update_invariants _ _ ⟨[], []⟩ h⟩

/-- Claim C10: a scan that sees zero networks makes `update` return early:
the whole fingerprint store — in-memory neighbor entries and the persisted
copy alike — is exactly what it was before. -/
theorem C10_empty_scan_is_noop :
    ∀ (targetSSID : Ssid) (st : FingerprintStore),
      update [] targetSSID st = st := by
  intro t st
  rfl

end WiFiFingerprinting

namespace WiFiFingerprinting

lemma any_decide_eq_mem (stored : List Ssid) (c : Ssid) :
    (stored.any fun n => decide (c = n)) = decide (c ∈ stored) := by
  by_cases h : c ∈ stored
  · simp only [decide_eq_true h]
    rw [List.any_eq_true]
    exact ⟨c, h, by simp⟩
  · simp only [h, decide_False]
    rw [List.any_eq_false]
    intro n hn
    simp only [decide_eq_true_eq]
    intro hcn
    exact h (hcn ▸ hn)

end WiFiFingerprinting

namespace WiFiFingerprinting

/-- Counterexample to claim C2 as stated: in the
`reference_ino/WiFiFingerprinting.h` variant (one of the two cited
implementations), a stored record of four neighbors and a live scan whose
first network `"a"` equals a stored entry (with two non-matching neighbors
alongside) yields `isSameLocation() = false` — the 75% policy demands three
matches — although the claim requires `true` whenever at least one visible
identifier matches. -/
theorem C2_counterexample :
    ((['a'] : Ssid) ∈ ([['a'], ['x'], ['y']] : List Ssid))
    ∧ ((['a'] : Ssid) ∈ ([['a'], ['b'], ['c'], ['d']] : List Ssid))
    ∧ ReferenceIno.isSameLocation [['a'], ['b'], ['c'], ['d']] [['a'], ['x'], ['y']]
        = false := by
  decide

end WiFiFingerprinting

namespace WiFiFingerprinting

/-- Claim C2 (amended): both `isSameLocation` variants return `false` on an
empty stored record and `true` (fail open) when a record exists but the scan
sees nothing; in the remaining case the `maayans_lamp` variant returns `true`
exactly when at least one visible SSID equals some stored entry, while the
`reference_ino` variant returns `true` exactly when the number of visible
matching SSIDs reaches `requiredMatches` = max(1, (count*3)/4) (count = 1
requiring 1) — so a single match among four stored entries yields `true` in
the former and `false` in the latter. -/
theorem C2_isSameLocation_policies (stored scanResults : List Ssid) :
    (stored = [] →
      MaayansLamp.isSameLocation stored scanResults = false
      ∧ ReferenceIno.isSameLocation stored scanResults = false)
    ∧ (stored ≠ [] → scanResults = [] →
      MaayansLamp.isSameLocation stored scanResults = true
      ∧ ReferenceIno.isSameLocation stored scanResults = true)
    ∧ (stored ≠ [] → scanResults ≠ [] →
      ((MaayansLamp.isSameLocation stored scanResults = true
          ↔ ∃ s ∈ scanResults, s ∈ stored)
      ∧ (ReferenceIno.isSameLocation stored scanResults = true
          ↔ ReferenceIno.requiredMatches stored.length
              ≤ (scanResults.filter fun s => decide (s ∈ stored)).length))) := by
  refine ⟨?_, ?_, ?_⟩
  · rintro rfl
    constructor <;> simp [MaayansLamp.isSameLocation, ReferenceIno.isSameLocation]
  · intro hst hsc
    subst hsc
    have h1 : stored.length ≠ 0 := by simpa [List.length_eq_zero] using hst
    constructor <;>
      simp [MaayansLamp.isSameLocation, ReferenceIno.isSameLocation, h1]
  · intro hst hsc
    have h1 : stored.length ≠ 0 := by simpa [List.length_eq_zero] using hst
    have h2 : scanResults.length ≠ 0 := by simpa [List.length_eq_zero] using hsc
    constructor
    · simp only [MaayansLamp.isSameLocation, if_neg h1, if_neg h2]
      rw [List.any_eq_true]
      constructor
      · rintro ⟨s, hs, hmatch⟩
        rw [any_decide_eq_mem, decide_eq_true_eq] at hmatch
        exact ⟨s, hs, hmatch⟩
      · rintro ⟨s, hs, hmem⟩
        exact ⟨s, hs, by rw [any_decide_eq_mem, decide_eq_true_eq]; exact hmem⟩
    · simp only [ReferenceIno.isSameLocation, if_neg h1, if_neg h2]
      have hfilter :
          scanResults.filter (fun currentSSID => stored.any fun n => decide (currentSSID = n))
            = scanResults.filter fun s => decide (s ∈ stored) := by
        apply List.filter_congr
        intro a _
        exact any_decide_eq_mem stored a
      rw [hfilter, decide_eq_true_eq]

/-- Witness for C2: a two-entry record and a scan matching one of the two
entries — both hypotheses of the nonempty case hold, the any-match variant
answers `true` via the exhibited match, and the 75% variant also answers
`true` because two stored entries only require one match. -/
theorem C2_witness :
    (([['a'], ['b']] : List Ssid) ≠ []) ∧ (([['a'], ['z']] : List Ssid) ≠ [])
    ∧ MaayansLamp.isSameLocation [['a'], ['b']] [['a'], ['z']] = true
    ∧ ReferenceIno.isSameLocation [['a'], ['b']] [['a'], ['z']] = true := by
  have h1 : (([['a'], ['b']] : List Ssid) ≠ []) := by decide
  have h2 : (([['a'], ['z']] : List Ssid) ≠ []) := by decide
  have h := (C2_isSameLocation_policies [['a'], ['b']] [['a'], ['z']]).2.2 h1 h2
  refine ⟨h1, h2, h.1.mpr ⟨['a'], by decide, by decide⟩, h.2.mpr (by decide)⟩

end WiFiFingerprinting

namespace ScalableArduino

/-- Claim C9: once data has been received, freshness is the pure comparison
`now - lastUpdate < threshold` with the fixed 1800000 ms staleness threshold
(the embedding is a function and mutates nothing; the C++ member is `const`):
at `now - lastUpdate = threshold - 1` the data is reported fresh, and at
exactly `now - lastUpdate = threshold` the strict-less-than convention reports
it stale. -/
theorem C9_freshness_boundary (d : SurfData) (now : Nat)
    (hreceived : d.dataReceived = true) :
    (now - d.lastUpdate = LampTemplate.DATA_STALENESS_THRESHOLD - 1 →
      d.isFresh now LampTemplate.DATA_STALENESS_THRESHOLD = true)
    ∧ (now - d.lastUpdate = LampTemplate.DATA_STALENESS_THRESHOLD →
      d.isFresh now LampTemplate.DATA_STALENESS_THRESHOLD = false)
    ∧ d.isFresh now LampTemplate.DATA_STALENESS_THRESHOLD
        = decide (now - d.lastUpdate < LampTemplate.DATA_STALENESS_THRESHOLD) := by
  have hform : d.isFresh now LampTemplate.DATA_STALENESS_THRESHOLD
      = decide (now - d.lastUpdate < LampTemplate.DATA_STALENESS_THRESHOLD) := by
    unfold SurfData.isFresh
    rw [hreceived]
    rfl
  refine ⟨?_, ?_, hform⟩
  · intro h
    rw [hform, h]
    decide
  · intro h
    rw [hform, h]
    decide

/-- Witness for C9: a concrete record received at time 0, evaluated one
millisecond before the threshold (fresh) and exactly at the threshold
(stale). -/
theorem C9_witness :
    (SurfData.mk true 0).isFresh 1799999 LampTemplate.DATA_STALENESS_THRESHOLD = true
    ∧ (SurfData.mk true 0).isFresh 1800000 LampTemplate.DATA_STALENESS_THRESHOLD = false := by
  have h1 := C9_freshness_boundary (SurfData.mk true 0) 1799999 rfl
  have h2 := C9_freshness_boundary (SurfData.mk true 0) 1800000 rfl
  exact ⟨h1.1 (by decide), h2.2.1 (by decide)⟩

end ScalableArduino

namespace LampTemplate

lemma setupAfterLoop_scenario (env : LoopEnv) (scen : SetupScenario)
    (fp : WiFiFingerprinting.FingerprintStore) (ex : LoopExit) :
    (setupAfterLoop env scen fp ex).scenario = scen := by
  cases ex with
  | connected n => rfl
  | restartDevice n => rfl
  | exhausted n => cases hp : env.portalOk <;> simp [setupAfterLoop, hp]
  | relocated n => cases hp : env.portalOk <;> simp [setupAfterLoop, hp]

lemma setupAfterLoop_loopExit (env : LoopEnv) (scen : SetupScenario)
    (fp : WiFiFingerprinting.FingerprintStore) (ex : LoopExit) :
    (setupAfterLoop env scen fp ex).loopExit = ex := by
  cases ex with
  | connected n => rfl
  | restartDevice n => rfl
  | exhausted n => cases hp : env.portalOk <;> simp [setupAfterLoop, hp]
  | relocated n => cases hp : env.portalOk <;> simp [setupAfterLoop, hp]

/-- Claim C1 (amended): in `setupWiFi` of lamp_template/WiFiHandler.cpp, any
run whose retry loop exhausts its budget without connecting does not restart
the device (the return value exists), forces the config portal open with the
indefinite (0) timeout, and returns `false` exactly when that indefinite
portal fails to start; moreover across all runs, a `false` return happens
only when the loop ended unconnected, the indefinite portal was forced, and
the portal itself failed. (The sibling `WiFiHandler::setup` in
template_ino/refractored_ino instead restarts the device on exhaustion — see
the counterexample.) -/
theorem C1_exhaustion_opens_indefinite_portal :
    (∀ (fp : WiFiFingerprinting.FingerprintStore) (hasCredentials : Bool) (env : LoopEnv),
        isExhausted (setupWiFi fp hasCredentials env).loopExit = true →
          ((setupWiFi fp hasCredentials env).returnValue ≠ none
           ∧ (setupWiFi fp hasCredentials env).portalForcedIndefinite = true
           ∧ ((setupWiFi fp hasCredentials env).returnValue = some false
                ↔ env.portalOk = false)))
    ∧ (∀ (fp : WiFiFingerprinting.FingerprintStore) (hasCredentials : Bool) (env : LoopEnv),
        (setupWiFi fp hasCredentials env).returnValue = some false →
          env.portalOk = false
          ∧ (setupWiFi fp hasCredentials env).portalForcedIndefinite = true) := by
  constructor
  · intro fp hasCredentials env
    unfold setupWiFi
    generalize acquisitionLoop hasCredentials env = ex
    intro h
    cases ex with
    | connected n => rw [setupAfterLoop_loopExit] at h; simp [isExhausted] at h
    | restartDevice n => rw [setupAfterLoop_loopExit] at h; simp [isExhausted] at h
    | relocated n => rw [setupAfterLoop_loopExit] at h; simp [isExhausted] at h
    | exhausted n =>
        cases hp : env.portalOk <;>
          simp [setupAfterLoop, hp]
  · intro fp hasCredentials env
    unfold setupWiFi
    generalize acquisitionLoop hasCredentials env = ex
    intro h
    cases ex with
    | connected n => simp [setupAfterLoop] at h
    | restartDevice n => simp [setupAfterLoop] at h
    | relocated n =>
        cases hp : env.portalOk
        · simp [setupAfterLoop, hp]
        · simp [setupAfterLoop, hp] at h
    | exhausted n =>
        cases hp : env.portalOk
        · simp [setupAfterLoop, hp]
        · simp [setupAfterLoop, hp] at h

/-- Witness for C1: with no stored credentials (single-attempt FIRST_SETUP),
a connection attempt that fails with a known SSID in an unmoved location,
and a failing portal, the loop exhausts and the theorem's conclusions
follow. -/
theorem C1_witness :
    isExhausted (setupWiFi ⟨[], []⟩ false
        ⟨fun _ => false, fun _ => true, fun _ => true, fun _ => 0, false⟩).loopExit = true
    ∧ ((setupWiFi ⟨[], []⟩ false
          ⟨fun _ => false, fun _ => true, fun _ => true, fun _ => 0, false⟩).returnValue ≠ none
       ∧ (setupWiFi ⟨[], []⟩ false
          ⟨fun _ => false, fun _ => true, fun _ => true, fun _ => 0, false⟩).portalForcedIndefinite = true
       ∧ ((setupWiFi ⟨[], []⟩ false
          ⟨fun _ => false, fun _ => true, fun _ => true, fun _ => 0, false⟩).returnValue = some false
            ↔ (⟨fun _ => false, fun _ => true, fun _ => true, fun _ => 0, false⟩ : LoopEnv).portalOk = false)) := by
  have h : isExhausted (setupWiFi ⟨[], []⟩ false
      ⟨fun _ => false, fun _ => true, fun _ => true, fun _ => 0, false⟩).loopExit = true := by
    simp [setupWiFi, acquisitionLoop, detectScenario, firstSetupLoop, setupAfterLoop, isExhausted]
  exact ⟨h, C1_exhaustion_opens_indefinite_portal.1 ⟨[], []⟩ false _ h⟩

/-- Claim C3 (amended): in the ROUTER_REBOOT retry loop of
lamp_template `setupWiFi`, any failed attempt with a known target SSID whose
`isSameLocation()` comes back negative exits the loop at that very attempt —
however much of the 5-minute budget or retry count remains — and every
relocation exit of `setupWiFi` forces the config portal open with the
indefinite timeout. (The sibling refractored_ino `WiFiHandler::setup`
breaks out of its loop the same way but then restarts the device instead of
forcing the portal — see the counterexample.) -/
theorem C3_negative_fingerprint_aborts_loop :
    (∀ (env : LoopEnv) (attempt elapsed : Nat),
        elapsed < WiFiTimeouts.ROUTER_REBOOT_TIMEOUT_MS →
        env.connectOk attempt = false →
        env.ssidKnown attempt = true →
        env.sameLoc attempt = false →
          routerLoop env attempt elapsed = LoopExit.relocated attempt)
    ∧ (∀ (fp : WiFiFingerprinting.FingerprintStore) (hasCredentials : Bool) (env : LoopEnv),
        isRelocated (setupWiFi fp hasCredentials env).loopExit = true →
          (setupWiFi fp hasCredentials env).portalForcedIndefinite = true
          ∧ (setupWiFi fp hasCredentials env).returnValue = some env.portalOk) := by
  constructor
  · intro env attempt elapsed h1 h2 h3 h4
    rw [routerLoop]
    rw [dif_neg (Nat.not_le.mpr h1)]
    simp [h2, h3, h4]
  · intro fp hasCredentials env
    unfold setupWiFi
    generalize acquisitionLoop hasCredentials env = ex
    intro h
    cases ex with
    | connected n => rw [setupAfterLoop_loopExit] at h; simp [isRelocated] at h
    | restartDevice n => rw [setupAfterLoop_loopExit] at h; simp [isRelocated] at h
    | exhausted n => rw [setupAfterLoop_loopExit] at h; simp [isRelocated] at h
    | relocated n =>
        cases hp : env.portalOk <;> simp [setupAfterLoop, hp]

/-- Witness for C3: at the very first attempt with the whole 5-minute budget
left, a failed connection with known SSID and a negative location check exits
the loop as `relocated 1`. -/
theorem C3_witness :
    ((0:Nat) < WiFiTimeouts.ROUTER_REBOOT_TIMEOUT_MS
      ∧ (⟨fun _ => false, fun _ => true, fun _ => false, fun _ => 0, true⟩ : LoopEnv).connectOk 1 = false
      ∧ (⟨fun _ => false, fun _ => true, fun _ => false, fun _ => 0, true⟩ : LoopEnv).ssidKnown 1 = true
      ∧ (⟨fun _ => false, fun _ => true, fun _ => false, fun _ => 0, true⟩ : LoopEnv).sameLoc 1 = false)
    ∧ routerLoop ⟨fun _ => false, fun _ => true, fun _ => false, fun _ => 0, true⟩ 1 0
        = LoopExit.relocated 1 :=
  ⟨⟨by decide, rfl, rfl, rfl⟩,
    C3_negative_fingerprint_aborts_loop.1 _ 1 0 (by decide) rfl rfl rfl⟩

/-- Claim C4: scenario detection in lamp_template `setupWiFi` happens once,
before the retry loop, and depends only on whether WiFi credentials are
persisted — for any loaded fingerprint record and any environment, no stored
credentials always gives FIRST_SETUP and stored credentials always gives
ROUTER_REBOOT (`detectScenario` of the credentials flag alone). -/
theorem C4_scenario_from_credentials_only :
    ∀ (fp : WiFiFingerprinting.FingerprintStore) (env : LoopEnv),
      (setupWiFi fp false env).scenario = SetupScenario.FIRST_SETUP
      ∧ (setupWiFi fp true env).scenario = SetupScenario.ROUTER_REBOOT
      ∧ (∀ hasCredentials : Bool,
          (setupWiFi fp hasCredentials env).scenario = detectScenario hasCredentials) := by
  intro fp env
  refine ⟨?_, ?_, ?_⟩
  · unfold setupWiFi
    rw [setupAfterLoop_scenario]
    rfl
  · unfold setupWiFi
    rw [setupAfterLoop_scenario]
    rfl
  · intro hasCredentials
    unfold setupWiFi
    rw [setupAfterLoop_scenario]

end LampTemplate

namespace LampTemplate

lemma routerLoop_exitAttempt_bound (env : LoopEnv) :
    ∀ (k attempt elapsed : Nat),
      WiFiTimeouts.ROUTER_REBOOT_TIMEOUT_MS - elapsed ≤ 25000 * k →
        exitAttempt (routerLoop env attempt elapsed) ≤ attempt + k := by
  intro k
  induction k with
  | zero =>
      intro a e h
      rw [routerLoop]
      rw [dif_pos (by unfold WiFiTimeouts.ROUTER_REBOOT_TIMEOUT_MS at h ⊢; omega)]
      simp [exitAttempt]
  | succ k ih =>
      intro a e h
      rw [routerLoop]
      by_cases h1 : WiFiTimeouts.ROUTER_REBOOT_TIMEOUT_MS ≤ e
      · rw [dif_pos h1]
        simp [exitAttempt]
      · rw [dif_neg h1]
        cases hc : env.connectOk a
        · simp only [hc, Bool.false_eq_true, if_false]
          cases hs : (env.ssidKnown a && !env.sameLoc a)
          · simp only [hs, Bool.false_eq_true, if_false]
            have hpow : 1 ≤ 2 ^ (a - 1) := Nat.one_le_pow _ _ (by decide)
            have h20 : 20 ≤ connTimeoutSec a := by
              unfold connTimeoutSec WiFiTimeouts.INITIAL_CONNECTION_TIMEOUT_SEC
                WiFiTimeouts.MAX_CONNECTION_TIMEOUT_SEC
              omega
            have h5 : 5 ≤ retryDelaySec a := by
              unfold retryDelaySec WiFiDelays.INITIAL_RETRY_DELAY_SEC
                WiFiDelays.MAX_RETRY_DELAY_SEC
              omega
            have harg : WiFiTimeouts.ROUTER_REBOOT_TIMEOUT_MS
                - (e + connTimeoutSec a * 1000 + env.diagTime a + retryDelaySec a * 1000)
                ≤ 25000 * k := by
              unfold WiFiTimeouts.ROUTER_REBOOT_TIMEOUT_MS at h h1 ⊢
              omega
            have hrec := ih (a + 1)
              (e + connTimeoutSec a * 1000 + env.diagTime a + retryDelaySec a * 1000) harg
            omega
          · simp only [hs, if_true, exitAttempt]
            omega
        · simp only [hc, if_true, exitAttempt]
          omega

lemma attemptsTried_le_exitAttempt (ex : LoopExit) :
    attemptsTried ex ≤ exitAttempt ex := by
  cases ex <;> simp [attemptsTried, exitAttempt]

/-- Claim C8: the bounded acquisition paths of lamp_template `setupWiFi`
terminate in bounded time — under FIRST_SETUP the loop stops by its second
top-of-loop check so at most one connection attempt runs; under
ROUTER_REBOOT the per-attempt connection timeout starts at 20 s, doubles,
and is capped at 60 s, the retry delay starts at 5 s, doubles, and is capped
at 60 s, the loop exits as soon as the elapsed time reaches the 300000 ms
budget, and — since every failed iteration consumes at least
timeout + delay ≥ 25 s — the loop runs at most 13 iterations. -/
theorem C8_bounded_acquisition :
    (∀ env : LoopEnv,
        exitAttempt (firstSetupLoop env 1) ≤ 2
        ∧ attemptsTried (firstSetupLoop env 1) ≤ 1)
    ∧ connTimeoutSec 1 = 20
    ∧ (∀ n, connTimeoutSec n ≤ 60)
    ∧ (∀ n, connTimeoutSec (n + 2) = min (2 * connTimeoutSec (n + 1)) 60)
    ∧ retryDelaySec 1 = 5
    ∧ (∀ n, retryDelaySec n ≤ 60)
    ∧ (∀ n, retryDelaySec (n + 2) = min (2 * retryDelaySec (n + 1)) 60)
    ∧ (∀ (env : LoopEnv) (attempt elapsed : Nat),
        WiFiTimeouts.ROUTER_REBOOT_TIMEOUT_MS ≤ elapsed →
          routerLoop env attempt elapsed = LoopExit.exhausted attempt)
    ∧ (∀ env : LoopEnv,
        exitAttempt (routerLoop env 1 0) ≤ 13
        ∧ attemptsTried (routerLoop env 1 0) ≤ 13) := by
  refine ⟨?_, by decide, ?_, ?_, by decide, ?_, ?_, ?_, ?_⟩
  · intro env
    cases hc : env.connectOk 1 <;> cases hs : env.ssidKnown 1 <;> cases hl : env.sameLoc 1 <;>
      simp [firstSetupLoop, hc, hs, hl, exitAttempt, attemptsTried]
  · intro n
    unfold connTimeoutSec WiFiTimeouts.INITIAL_CONNECTION_TIMEOUT_SEC
      WiFiTimeouts.MAX_CONNECTION_TIMEOUT_SEC
    omega
  · intro n
    unfold connTimeoutSec WiFiTimeouts.INITIAL_CONNECTION_TIMEOUT_SEC
      WiFiTimeouts.MAX_CONNECTION_TIMEOUT_SEC
    show min (20 * 2 ^ (n + 1)) 60 = min (2 * min (20 * 2 ^ n) 60) 60
    have hp : (2:Nat) ^ (n + 1) = 2 ^ n * 2 := pow_succ 2 n
    omega
  · intro n
    unfold retryDelaySec WiFiDelays.INITIAL_RETRY_DELAY_SEC WiFiDelays.MAX_RETRY_DELAY_SEC
    omega
  · intro n
    unfold retryDelaySec WiFiDelays.INITIAL_RETRY_DELAY_SEC WiFiDelays.MAX_RETRY_DELAY_SEC
    show min (5 * 2 ^ (n + 1)) 60 = min (2 * min (5 * 2 ^ n) 60) 60
    have hp : (2:Nat) ^ (n + 1) = 2 ^ n * 2 := pow_succ 2 n
    omega
  · intro env attempt elapsed h
    rw [routerLoop]
    rw [dif_pos h]
  · intro env
    have h := routerLoop_exitAttempt_bound env 12 1 0
      (by unfold WiFiTimeouts.ROUTER_REBOOT_TIMEOUT_MS; omega)
    have h2 := attemptsTried_le_exitAttempt (routerLoop env 1 0)
    omega

/-- Witness for C8: an elapsed time at the 5-minute budget makes the router
loop exit immediately as exhausted. -/
theorem C8_witness :
    WiFiTimeouts.ROUTER_REBOOT_TIMEOUT_MS ≤ 300000
    ∧ routerLoop ⟨fun _ => false, fun _ => true, fun _ => true, fun _ => 0, true⟩ 1 300000
        = LoopExit.exhausted 1 :=
  ⟨by decide,
    C8_bounded_acquisition.2.2.2.2.2.2.2.1 _ 1 300000 (by decide)⟩

end LampTemplate

namespace RefractoredIno

/-- Counterexample to claim C1 as stated: in `WiFiHandler::setup` of
template_ino/refractored_ino/WiFiHandler.cpp (one of the two cited
implementations), with stored credentials, a connection attempt that fails
with a known SSID in an unmoved location exhausts the single-attempt loop
(`loopFinished`), after which the code restarts the device — it opens no
indefinite config portal and never reports failure to a caller. -/
theorem C1_counterexample :
    setupLoop true false true true = LoopEnd.loopFinished
    ∧ setup true false true true = Outcome.restartDevice := by
  decide

/-- Counterexample to claim C3 as stated: in `WiFiHandler::setup` of
template_ino/refractored_ino/WiFiHandler.cpp, a failed attempt with a known
SSID and a negative `isSameLocation()` does break out of the retry loop
(`brokeRelocated`), but the run then restarts the device rather than forcing
the operator-configuration channel open. -/
theorem C3_counterexample :
    setupLoop true false true false = LoopEnd.brokeRelocated
    ∧ setup true false true false = Outcome.restartDevice := by
  decide

end RefractoredIno
